import Mathlib

/-!
Verification of the mcp-orchestrator-api chat endpoint (`api/index.py`).

We shallowly embed the message adapter (`convert_messages_to_gemini`), the
tool-name translation, the tool invoker's error handling, the transcript
extension performed on the tool-call path, and the streaming generator of
the `chat` handler, and prove the spec's testable properties about them.

Dictionaries from the Python source are embedded as structures with
`Option`-valued fields, so that `d.get(k, default)` becomes
`field.getD default`.  External services (the generation API, the tool
server) are modelled as an environment of response functions that the
`chat` handler consumes; theorems quantify over that environment.
-/

namespace MCPOrchestrator

/-- A JSON value (the shape of `json.dumps`-serialisable Python data).
Numbers are modelled as integers; floats do not occur in the claims. -/
inductive Json where
  | null : Json
  | bool (b : Bool) : Json
  | num (n : Int) : Json
  | str (s : String) : Json
  | arr (xs : List Json) : Json
  | obj (kvs : List (String × Json)) : Json

/-- Escaping of `"` and backslash inside a JSON string literal, as
`json.dumps` does for the characters appearing in this development. -/
def jsonEscapeChar (c : Char) : String :=
  if c = '\\' then "\\\\"
  else if c = '"' then "\\\""
  else String.singleton c

def jsonEscape (s : String) : String :=
  String.join (s.data.map jsonEscapeChar)

mutual
/-- `json.dumps` with Python's default separators (`", "` and `": "`). -/
def jsonDumps : Json → String
  | Json.null => "null"
  | Json.bool b => if b then "true" else "false"
  | Json.num n => toString n
  | Json.str s => "\"" ++ jsonEscape s ++ "\""
  | Json.arr xs => "[" ++ dumpsArr xs ++ "]"
  | Json.obj kvs => "\x7b" ++ dumpsObj kvs ++ "\x7d"

def dumpsArr : List Json → String
  | [] => ""
  | [x] => jsonDumps x
  | x :: y :: xs => jsonDumps x ++ ", " ++ dumpsArr (y :: xs)

def dumpsObj : List (String × Json) → String
  | [] => ""
  | [(k, v)] => "\"" ++ jsonEscape k ++ "\": " ++ jsonDumps v
  | (k, v) :: kv :: kvs =>
      "\"" ++ jsonEscape k ++ "\": " ++ jsonDumps v ++ ", " ++ dumpsObj (kv :: kvs)
end

/-- A Python value appearing as the `content` of a `tool_result` part:
either a `str`, a non-string JSON-serialisable value, or a value on which
`json.dumps` raises `TypeError` (carrying its `str()` rendering). -/
inductive PyVal where
  | pstr (s : String) : PyVal
  | pjson (j : Json) : PyVal
  | pother (rep : String) : PyVal

/-- Coercion of a tool-result content to a string, as done at
`api/index.py` lines 96-102: strings pass through, other values are
JSON-serialised, and non-serialisable values fall back to `str()`. -/
def coerceToolContent : PyVal → String
  | PyVal.pstr s => s
  | PyVal.pjson j => jsonDumps j
  | PyVal.pother rep => rep

/-- One element of a list-valued `content`: a Python dict whose keys the
adapter reads via `.get`.  `strRep` is the `str(item)` rendering used by
the text fallback at line 115.  The `arguments?` field is never read by
the code; it is present so claims about it can be stated. -/
structure ContentItem where
  type? : Option String
  name? : Option String
  input? : Option Json
  arguments? : Option Json
  content? : Option PyVal
  tool_use_id? : Option String
  text? : Option String
  strRep : String

/-- The `content` field of a message: a string, a list of parts, or
anything else (which the adapter skips with a warning). -/
inductive Content where
  | str (s : String) : Content
  | list (items : List ContentItem) : Content
  | other (rep : String) : Content

/-- An incoming (Vercel-AI-SDK-style) chat message: a dict whose `role`
and `content` keys may each be absent. -/
structure ChatMessage where
  role? : Option String
  content? : Option Content

/-- A part of an adapted (Gemini-format) message. -/
inductive GemPart where
  | text (s : String) : GemPart
  | functionCall (name : String) (args : Json) : GemPart
  | functionResponse (name : String) (content : String) : GemPart

/-- An adapted message in Gemini format. -/
structure GemMessage where
  role : String
  parts : List GemPart

/-- `item.get("type", "text")` (line 86). -/
def itemType (item : ContentItem) : String :=
  item.type?.getD "text"

/-- The role computed at lines 76-78: `msg.get("role", "user")`, then
`"assistant"` is mapped to `"model"`; every other value is kept. -/
def baseRole (m : ChatMessage) : String :=
  let r := m.role?.getD "user"
  if r = "assistant" then "model" else r

/-- The per-item loop of `convert_messages_to_gemini` (lines 85-115),
threading the mutable `role` variable: processing a `tool_result` part
sets it to `"user"` for the rest of the loop.  Returns the accumulated
parts and the final value of `role`. -/
def processItems : List ContentItem → String → (List GemPart × String)
  | [], role => ([], role)
  | item :: rest, role =>
    let t := itemType item
    if t = "tool_use" then
      let p := GemPart.functionCall (item.name?.getD "") (item.input?.getD (Json.obj []))
      let pr := processItems rest role
      (p :: pr.1, pr.2)
    else if t = "tool_result" then
      let contentStr := coerceToolContent (item.content?.getD (PyVal.pstr ""))
      let toolNameUsed := item.tool_use_id?.getD (item.name?.getD "")
      let p := GemPart.functionResponse toolNameUsed contentStr
      let pr := processItems rest "user"
      (p :: pr.1, pr.2)
    else
      let p := GemPart.text (item.text?.getD item.strRep)
      let pr := processItems rest role
      (p :: pr.1, pr.2)

/-- Adaptation of one message (the body of the `for msg in messages`
loop, lines 74-121).  Returns `none` exactly when the message is skipped
because its content is neither a string nor a list (lines 120-121). -/
def convertMessage (m : ChatMessage) : Option GemMessage :=
  let role := baseRole m
  match m.content?.getD (Content.str "") with
  | Content.str s => some ⟨role, [GemPart.text s]⟩
  | Content.list items =>
      let pr := processItems items role
      some ⟨pr.2, pr.1⟩
  | Content.other _ => none

/-- `convert_messages_to_gemini` (lines 71-124). -/
def convert_messages_to_gemini (messages : List ChatMessage) : List GemMessage :=
  messages.filterMap convertMessage

/-!
### Exception-aware adapter

`ChatMessage`/`ContentItem` above can only represent dict-shaped inputs,
on which the Python adapter cannot raise.  To settle whether the adapter
is total on arbitrary inputs, the types below additionally represent a
non-dict value in a message position (where `msg.get`, line 76, raises
`AttributeError`) and in a list-content item position (where `item.get`,
line 86, raises `AttributeError`), and the adapter is re-embedded with
an `Except` result.  `convert_e_embed` below proves that on dict-shaped
inputs this adapter never raises and agrees with
`convert_messages_to_gemini`.
-/

/-- An element of a list-valued content as Python sees it: a dict
(embedded as `ContentItem`) or any non-dict value (carrying its `str()`
rendering), on which the loop's first attribute access `item.get`
(line 86) raises `AttributeError`. -/
inductive PyItem where
  | dict (item : ContentItem) : PyItem
  | nondict (rep : String) : PyItem

/-- The content field with non-dict list elements representable. -/
inductive ContentE where
  | str (s : String) : ContentE
  | list (items : List PyItem) : ContentE
  | other (rep : String) : ContentE

/-- A message dict whose list-valued content may hold non-dict items. -/
structure ChatMessageE where
  role? : Option String
  content? : Option ContentE

/-- A message as Python sees it: a dict or any non-dict value, on which
`msg.get("role", "user")` (line 76) raises `AttributeError`. -/
inductive PyMsg where
  | dict (m : ChatMessageE) : PyMsg
  | nondict (rep : String) : PyMsg

/-- The uncaught exception the adapter can raise (it escapes
`convert_messages_to_gemini` to the handler's top-level `except`,
lines 256-261, which answers with a 500). -/
inductive PyError where
  | attributeError (rep : String) : PyError

/-- `baseRole` on the exception-aware message type (lines 76-78). -/
def baseRoleE (m : ChatMessageE) : String :=
  let r := m.role?.getD "user"
  if r = "assistant" then "model" else r

/-- The per-item loop (lines 85-115) over possibly non-dict items: a
non-dict item raises at its first `.get`, aborting the whole adapter. -/
def processItemsE : List PyItem → String → Except PyError (List GemPart × String)
  | [], role => Except.ok ([], role)
  | PyItem.nondict rep :: _, _ => Except.error (PyError.attributeError rep)
  | PyItem.dict item :: rest, role =>
    let t := itemType item
    if t = "tool_use" then
      match processItemsE rest role with
      | Except.ok pr => Except.ok
          (GemPart.functionCall (item.name?.getD "") (item.input?.getD (Json.obj [])) :: pr.1,
           pr.2)
      | Except.error e => Except.error e
    else if t = "tool_result" then
      match processItemsE rest "user" with
      | Except.ok pr => Except.ok
          (GemPart.functionResponse (item.tool_use_id?.getD (item.name?.getD ""))
             (coerceToolContent (item.content?.getD (PyVal.pstr ""))) :: pr.1,
           pr.2)
      | Except.error e => Except.error e
    else
      match processItemsE rest role with
      | Except.ok pr => Except.ok (GemPart.text (item.text?.getD item.strRep) :: pr.1, pr.2)
      | Except.error e => Except.error e

/-- Adaptation of one possibly non-dict message: a non-dict message
raises at `msg.get` (line 76); a dict message is adapted as in
`convertMessage`, with its list items processed by `processItemsE`. -/
def convertMessageE : PyMsg → Except PyError (Option GemMessage)
  | PyMsg.nondict rep => Except.error (PyError.attributeError rep)
  | PyMsg.dict m =>
    let role := baseRoleE m
    match m.content?.getD (ContentE.str "") with
    | ContentE.str s => Except.ok (some ⟨role, [GemPart.text s]⟩)
    | ContentE.list items =>
        match processItemsE items role with
        | Except.ok pr => Except.ok (some ⟨pr.2, pr.1⟩)
        | Except.error e => Except.error e
    | ContentE.other _ => Except.ok none

/-- The exception-aware `convert_messages_to_gemini`: an error anywhere
aborts the whole call with that exception. -/
def convert_messages_to_gemini_e : List PyMsg → Except PyError (List GemMessage)
  | [] => Except.ok []
  | msg :: rest =>
    match convertMessageE msg with
    | Except.error e => Except.error e
    | Except.ok none => convert_messages_to_gemini_e rest
    | Except.ok (some g) =>
      match convert_messages_to_gemini_e rest with
      | Except.error e => Except.error e
      | Except.ok gs => Except.ok (g :: gs)

/-- Embedding of dict-shaped content into the exception-aware type. -/
def embedContent : Content → ContentE
  | Content.str s => ContentE.str s
  | Content.list items => ContentE.list (items.map PyItem.dict)
  | Content.other rep => ContentE.other rep

/-- Embedding of a dict-shaped message into the exception-aware type. -/
def embedMsg (m : ChatMessage) : PyMsg :=
  PyMsg.dict ⟨m.role?, m.content?.map embedContent⟩

/-- Whether a list item is a dict. -/
def itemDict : PyItem → Bool
  | PyItem.dict _ => true
  | PyItem.nondict _ => false

/-- Whether a message is a shape the adapter survives: a dict whose
list-valued content (if that is its shape) holds only dict items. -/
def wellShaped : PyMsg → Bool
  | PyMsg.nondict _ => false
  | PyMsg.dict m =>
    match m.content?.getD (ContentE.str "") with
    | ContentE.list items => items.all itemDict
    | _ => true

/-- `s.replace("_", ": ", 1)` on the character list: the first underscore
becomes colon-space, everything after it is untouched (line 164). -/
def replaceFirstUnderscore : List Char → List Char
  | [] => []
  | c :: cs => if c = '_' then ':' :: ' ' :: cs else c :: replaceFirstUnderscore cs

/-- `tool_name.replace("_", ": ", 1)` (line 164). -/
def toolNameMcp (s : String) : String :=
  String.mk (replaceFirstUnderscore s.data)

/-- The JSON body POSTed to `{WORKSHOP_URL}/call_tool` (line 173):
`{"name": tool_name_mcp, "params": tool_params}`. -/
structure ToolRequest where
  name : String
  params : Json

/-- The possible outcomes of the HTTP round trip to the Workshop tool
server, as distinguished by the `except` arms at lines 178-186:
success with a parsed JSON body, `httpx.RequestError` (network error or
timeout), `httpx.HTTPStatusError` (raised by `raise_for_status` on a
non-2xx reply), or any other exception (e.g. a malformed JSON body). -/
inductive ToolOutcome where
  | success (body : Json) : ToolOutcome
  | networkError (e : String) : ToolOutcome
  | httpStatusError (status : Nat) (text : String) : ToolOutcome
  | otherError (e : String) : ToolOutcome

def ToolOutcome.isFailure : ToolOutcome → Bool
  | ToolOutcome.success _ => false
  | _ => true

/-- The value bound to `tool_result` after the `try`/`except` block at
lines 169-186: the parsed body on success, an `{"error": ...}` dict on
each failure arm. -/
def invokeResult : ToolOutcome → Json
  | ToolOutcome.success body => body
  | ToolOutcome.networkError e =>
      Json.obj [("error", Json.str ("Network error contacting Workshop: " ++ e))]
  | ToolOutcome.httpStatusError status text =>
      Json.obj [("error", Json.str ("Workshop server returned error " ++ toString status ++ ": " ++ text))]
  | ToolOutcome.otherError e =>
      Json.obj [("error", Json.str ("Unexpected error calling tool: " ++ e))]

/-- One chunk of a streamed generation response.  `parts` carries, for
each part of the chunk, `some t` when the part has a `text` attribute
with value `t` and `none` otherwise; `blockReason?` is `some r` when
`chunk.prompt_feedback.block_reason` is present and truthy;
`blockReasonMessage?` models `block_reason_message` (absent or falsy
empty string both fall back to the reason, via Python `or`). -/
structure Chunk where
  parts : List (Option String)
  blockReason? : Option String
  blockReasonMessage? : Option String

/-- The texts yielded for one chunk (lines 211-214): each part with a
truthy (non-empty) `text`. -/
def chunkTexts (ps : List (Option String)) : List String :=
  ps.filterMap (fun t? => t?.bind (fun t => if t = "" then none else some t))

/-- The diagnostic fragment yielded on a safety block (line 218),
using `block_reason_message or block_reason`. -/
def blockDiagnostic (reason : String) (msg? : Option String) : String :=
  let shown := match msg? with
    | some m => if m = "" then reason else m
    | none => reason
  "\n[Error: Response blocked due to " ++ shown ++ "]"

/-- The `stream_generator` coroutine (lines 206-222) as a function from
the sequence of upstream chunks to the sequence of yielded fragments:
each chunk's truthy texts are yielded, then a truthy block reason yields
one diagnostic fragment and breaks out of the loop.
(`text_stream_generator`, lines 236-252, is the same function.) -/
def stream_generator : List Chunk → List String
  | [] => []
  | c :: cs =>
    let texts := chunkTexts c.parts
    match c.blockReason? with
    | some r => texts ++ [blockDiagnostic r c.blockReasonMessage?]
    | none => texts ++ stream_generator cs

/-- The probe (first, non-streaming) generation call's result, after the
validity check at line 147: `invalid` when there are no candidates, no
content or no parts; otherwise the first part of the first candidate. -/
inductive ProbeResp where
  | invalid : ProbeResp
  | valid (firstPart : GemPart) : ProbeResp

/-- The tool-call test at line 155: the first part declares a function
call with a truthy (non-empty) name. -/
def partToolCall? : GemPart → Option (String × Json)
  | GemPart.functionCall n a => if n = "" then none else some (n, a)
  | _ => none

/-- The external services consumed by one request: the probe call, the
tool server (keyed by the POSTed request body), and the final streaming
call (keyed by the transcript it is given). -/
structure Env where
  probe : List GemMessage → ProbeResp
  tool : ToolRequest → ToolOutcome
  finalStream : List GemMessage → List Chunk

/-- The request body dict: `body.get('messages', [])` (line 132). -/
structure RequestBody where
  messages? : Option (List ChatMessage)

/-- The observable outcome of the `chat` handler: the early 400 reply,
the 500 invalid-response reply, or a streamed reply.  On the tool-call
path the outcome records the tool-server request that was issued, the
transcript given to the final call, and the streamed fragments; on the
plain-text path, the transcript of the second call and its fragments. -/
inductive ChatOutcome where
  | badRequest (body : String) : ChatOutcome
  | invalidResponse (body : String) : ChatOutcome
  | toolStreamed (req : ToolRequest) (finalTranscript : List GemMessage)
      (output : List String) : ChatOutcome
  | textStreamed (transcript : List GemMessage) (output : List String) : ChatOutcome

/-- The `chat` endpoint handler (lines 127-254) over an environment of
external services.  The top-level `except` arm (lines 256-261) has no
counterpart because every step of this model is total. -/
def chat (env : Env) (body : RequestBody) : ChatOutcome :=
  let messages := body.messages?.getD []
  if messages.isEmpty then
    ChatOutcome.badRequest "No messages provided."
  else
    let gemini_messages := convert_messages_to_gemini messages
    match env.probe gemini_messages with
    | ProbeResp.invalid =>
        ChatOutcome.invalidResponse "Sorry, I received an unexpected response from the AI."
    | ProbeResp.valid first_part =>
      match partToolCall? first_part with
      | some (tool_name, tool_params) =>
          let tool_name_mcp := toolNameMcp tool_name
          let req : ToolRequest := ⟨tool_name_mcp, tool_params⟩
          let tool_result := invokeResult (env.tool req)
          let tool_result_content_str := jsonDumps tool_result
          let final_transcript := gemini_messages ++
            [⟨"model", [first_part]⟩,
             ⟨"user", [GemPart.functionResponse tool_name tool_result_content_str]⟩]
          ChatOutcome.toolStreamed req final_transcript
            (stream_generator (env.finalStream final_transcript))
      | none =>
          ChatOutcome.textStreamed gemini_messages
            (stream_generator (env.finalStream gemini_messages))

/-! ## Helper definitions and lemmas -/

/-- Whether a list of content items contains at least one `tool_result`
part (classified by the same `item.get("type", "text")` the loop uses). -/
def hasToolResult : List ContentItem → Bool
  | [] => false
  | item :: rest => if itemType item = "tool_result" then true else hasToolResult rest

/-- The final value of the loop's `role` variable: `"user"` as soon as
any `tool_result` part occurs, the incoming role otherwise. -/
theorem processItems_snd (items : List ContentItem) (r : String) :
    (processItems items r).2 = if hasToolResult items then "user" else r := by
  induction items generalizing r with
  | nil => rfl
  | cons item rest ih =>
    by_cases h1 : itemType item = "tool_use"
    · have h2 : itemType item ≠ "tool_result" := by rw [h1]; decide
      simp [processItems, hasToolResult, h1, h2, ih]
    · by_cases h2 : itemType item = "tool_result"
      · simp [processItems, hasToolResult, h1, h2, ih]
      · simp [processItems, hasToolResult, h1, h2, ih]

/-- Whether a message's content (after the `.get("content", "")`
default) is a string or a list — i.e. whether the adapter emits a
message for it instead of skipping it. -/
def contentOk (m : ChatMessage) : Bool :=
  match m.content?.getD (Content.str "") with
  | Content.other _ => false
  | _ => true

theorem convertMessage_isSome (m : ChatMessage) (h : contentOk m = true) :
    (convertMessage m).isSome := by
  unfold convertMessage contentOk at *
  cases hm : m.content?.getD (Content.str "") with
  | str s => simp [hm]
  | list items => simp [hm]
  | other rep => simp [hm] at h

theorem convert_length_le (msgs : List ChatMessage) :
    (convert_messages_to_gemini msgs).length ≤ msgs.length :=
  List.length_filterMap_le _ _

theorem convert_length_eq (msgs : List ChatMessage)
    (h : ∀ m ∈ msgs, contentOk m = true) :
    (convert_messages_to_gemini msgs).length = msgs.length := by
  induction msgs with
  | nil => rfl
  | cons m rest ih =>
    have h1 := convertMessage_isSome m (h m (by simp))
    unfold convert_messages_to_gemini at *
    cases hm : convertMessage m with
    | none => rw [hm] at h1; simp at h1
    | some g => simp [List.filterMap_cons, hm, ih (fun x hx => h x (by simp [hx]))]

/-- On all-dict item lists the exception-aware loop never raises and
agrees with `processItems`. -/
theorem processItemsE_dict (items : List ContentItem) (r : String) :
    processItemsE (items.map PyItem.dict) r = Except.ok (processItems items r) := by
  induction items generalizing r with
  | nil => rfl
  | cons item rest ih =>
    by_cases h1 : itemType item = "tool_use"
    · simp [processItemsE, processItems, h1, ih]
    · by_cases h2 : itemType item = "tool_result"
      · simp [processItemsE, processItems, h1, h2, ih]
      · simp [processItemsE, processItems, h1, h2, ih]

/-- On a dict-shaped message the exception-aware adapter never raises
and agrees with `convertMessage`. -/
theorem convertMessageE_embed (m : ChatMessage) :
    convertMessageE (embedMsg m) = Except.ok (convertMessage m) := by
  obtain ⟨role?, content?⟩ := m
  cases content? with
  | none => rfl
  | some c =>
    cases c with
    | str s => rfl
    | other rep => rfl
    | list items =>
      simp [convertMessageE, convertMessage, embedMsg, embedContent,
        processItemsE_dict, baseRoleE, baseRole]

/-- Refinement: on dict-shaped inputs the exception-aware adapter never
raises and computes exactly `convert_messages_to_gemini`. -/
theorem convert_e_embed (msgs : List ChatMessage) :
    convert_messages_to_gemini_e (msgs.map embedMsg) =
      Except.ok (convert_messages_to_gemini msgs) := by
  induction msgs with
  | nil => rfl
  | cons m rest ih =>
    cases hm : convertMessage m with
    | none =>
      simp [convert_messages_to_gemini_e, convertMessageE_embed m, hm, ih,
        convert_messages_to_gemini, List.filterMap_cons]
    | some g =>
      simp [convert_messages_to_gemini_e, convertMessageE_embed m, hm, ih,
        convert_messages_to_gemini, List.filterMap_cons]

/-- An item list containing a non-dict element makes the loop raise. -/
theorem processItemsE_error (items : List PyItem) (r : String)
    (h : items.all itemDict = false) :
    ∃ e, processItemsE items r = Except.error e := by
  induction items generalizing r with
  | nil => simp at h
  | cons it rest ih =>
    cases it with
    | nondict rep => exact ⟨PyError.attributeError rep, rfl⟩
    | dict item =>
      simp only [List.all_cons, itemDict, Bool.true_and] at h
      by_cases h1 : itemType item = "tool_use"
      · obtain ⟨e, he⟩ := ih r h
        exact ⟨e, by simp [processItemsE, h1, he]⟩
      · by_cases h2 : itemType item = "tool_result"
        · obtain ⟨e, he⟩ := ih "user" h
          exact ⟨e, by simp [processItemsE, h1, h2, he]⟩
        · obtain ⟨e, he⟩ := ih r h
          exact ⟨e, by simp [processItemsE, h1, h2, he]⟩

/-- A message that is not well-shaped makes its adaptation raise. -/
theorem convertMessageE_error (msg : PyMsg) (h : wellShaped msg = false) :
    ∃ e, convertMessageE msg = Except.error e := by
  cases msg with
  | nondict rep => exact ⟨PyError.attributeError rep, rfl⟩
  | dict m =>
    simp only [wellShaped] at h
    cases hc : m.content?.getD (ContentE.str "") with
    | str s => rw [hc] at h; simp at h
    | other rep => rw [hc] at h; simp at h
    | list items =>
      rw [hc] at h
      obtain ⟨e, he⟩ := processItemsE_error items (baseRoleE m) h
      exact ⟨e, by simp [convertMessageE, hc, he]⟩

/-- A message list containing a non-well-shaped element makes the whole
adapter call raise (the exception propagates out of the loop). -/
theorem convert_e_error (pmsgs : List PyMsg)
    (h : ∃ m ∈ pmsgs, wellShaped m = false) :
    ∃ err, convert_messages_to_gemini_e pmsgs = Except.error err := by
  induction pmsgs with
  | nil => simp at h
  | cons msg rest ih =>
    by_cases hw : wellShaped msg = false
    · obtain ⟨e, he⟩ := convertMessageE_error msg hw
      exact ⟨e, by simp [convert_messages_to_gemini_e, he]⟩
    · have hrest : ∃ m ∈ rest, wellShaped m = false := by
        obtain ⟨m, hm, hmf⟩ := h
        rcases List.mem_cons.mp hm with hm1 | hm1
        · exact absurd (hm1 ▸ hmf) hw
        · exact ⟨m, hm1, hmf⟩
      obtain ⟨e, he⟩ := ih hrest
      cases hcm : convertMessageE msg with
      | error e2 => exact ⟨e2, by simp [convert_messages_to_gemini_e, hcm]⟩
      | ok o =>
        cases o with
        | none => exact ⟨e, by simp [convert_messages_to_gemini_e, hcm, he]⟩
        | some g => exact ⟨e, by simp [convert_messages_to_gemini_e, hcm, he]⟩

/-- Replacing the first occurrence of `'_'` when the split into a
underscore-free front and the first underscore is given explicitly. -/
theorem replaceFirst_split (front rest : List Char) (h : '_' ∉ front) :
    replaceFirstUnderscore (front ++ '_' :: rest) = front ++ ':' :: ' ' :: rest := by
  induction front with
  | nil => simp [replaceFirstUnderscore]
  | cons c cs ih =>
    simp only [List.mem_cons, not_or] at h
    have hcu : c ≠ '_' := fun hh => h.1 hh.symm
    simp [replaceFirstUnderscore, hcu, ih h.2]

/-- Reduction of `chat` on the tool-call path: with a non-empty message
list, a valid probe response whose first part is a function call with a
non-empty name, the handler issues the renamed tool request, appends the
two history messages and streams the second call on that transcript. -/
theorem chat_toolPath (env : Env) (body : RequestBody)
    (fp : GemPart) (n : String) (a : Json)
    (hne : (body.messages?.getD []).isEmpty = false)
    (hp : env.probe (convert_messages_to_gemini (body.messages?.getD [])) = ProbeResp.valid fp)
    (hc : partToolCall? fp = some (n, a)) :
    chat env body = ChatOutcome.toolStreamed ⟨toolNameMcp n, a⟩
      (convert_messages_to_gemini (body.messages?.getD []) ++
        [⟨"model", [fp]⟩,
         ⟨"user", [GemPart.functionResponse n
            (jsonDumps (invokeResult (env.tool ⟨toolNameMcp n, a⟩)))]⟩])
      (stream_generator (env.finalStream (convert_messages_to_gemini (body.messages?.getD []) ++
        [⟨"model", [fp]⟩,
         ⟨"user", [GemPart.functionResponse n
            (jsonDumps (invokeResult (env.tool ⟨toolNameMcp n, a⟩)))]⟩]))) := by
  simp [chat, hne, hp, hc]

/-! ## Concrete inputs used by the witnesses -/

/-- A probe first part requesting `FS_list_files({"path": "."})`. -/
def fpW : GemPart := GemPart.functionCall "FS_list_files" (Json.obj [("path", Json.str ".")])

/-- An environment whose probe requests a tool call, whose tool server
answers successfully, and whose final stream is empty. -/
def envToolOk : Env :=
  ⟨fun _ => ProbeResp.valid fpW,
   fun _ => ToolOutcome.success (Json.str "ok"),
   fun _ => []⟩

/-- Like `envToolOk` but the tool server is unreachable. -/
def envToolFail : Env :=
  ⟨fun _ => ProbeResp.valid fpW,
   fun _ => ToolOutcome.networkError "connection refused",
   fun _ => []⟩

/-- A request body with one plain user message. -/
def bodyOneMsg : RequestBody := ⟨some [⟨some "user", some (Content.str "hi")⟩]⟩

/-- The adapted transcript of `bodyOneMsg`. -/
def probeTW : List GemMessage := [⟨"user", [GemPart.text "hi"]⟩]

/-- `probeTW` extended by the tool round trip against `envToolOk`. -/
def finalTW : List GemMessage :=
  probeTW ++ [⟨"model", [fpW]⟩, ⟨"user", [GemPart.functionResponse "FS_list_files" "\"ok\""]⟩]

/-! ## Claim theorems -/

/-- C1: on the tool-call path, the transcript of the second (final,
streaming) generation call equals the probe call's transcript plus
exactly two appended messages, in order: the model's tool-call message
(role `"model"`, carrying the probe's first part) and then the
stringified tool-result message in the tool-result role (`"user"`); no
existing message is removed, modified or reordered, and the final
transcript's length is the probe transcript's length plus exactly 2. -/
theorem C1_transcript_extension (env : Env) (body : RequestBody)
    (fp : GemPart) (n : String) (a : Json) (probeT finalT : List GemMessage)
    (hne : (body.messages?.getD []).isEmpty = false)
    (hp : env.probe (convert_messages_to_gemini (body.messages?.getD [])) = ProbeResp.valid fp)
    (hc : partToolCall? fp = some (n, a))
    (hT : probeT = convert_messages_to_gemini (body.messages?.getD []))
    (hF : finalT = probeT ++
        [⟨"model", [fp]⟩,
         ⟨"user", [GemPart.functionResponse n
            (jsonDumps (invokeResult (env.tool ⟨toolNameMcp n, a⟩)))]⟩]) :
    chat env body = ChatOutcome.toolStreamed ⟨toolNameMcp n, a⟩ finalT
        (stream_generator (env.finalStream finalT))
    ∧ finalT.length = probeT.length + 2
    ∧ finalT.take probeT.length = probeT := by
  subst hT hF
  refine ⟨chat_toolPath env body fp n a hne hp hc, ?_, ?_⟩
  · simp
  · simp

/-- Witness for C1 at a concrete request and environment. -/
theorem C1_transcript_extension_witness :
    chat envToolOk bodyOneMsg =
      ChatOutcome.toolStreamed ⟨"FS: list_files", Json.obj [("path", Json.str ".")]⟩ finalTW []
    ∧ finalTW.length = probeTW.length + 2
    ∧ finalTW.take probeTW.length = probeTW :=
  C1_transcript_extension envToolOk bodyOneMsg fpW "FS_list_files"
    (Json.obj [("path", Json.str ".")]) probeTW finalTW rfl rfl rfl rfl rfl

/-- C2 counterexample: a message with the declared role `"system"` and
string content is adapted with role `"system"`, not `"user"` — the code
maps only `"assistant"` and keeps every other declared role unchanged. -/
theorem C2_role_mapping_counterexample :
    (convert_messages_to_gemini [⟨some "system", some (Content.str "hi")⟩]).map
      (fun m => m.role) = ["system"]
    ∧ "system" ≠ "user" := ⟨rfl, by decide⟩

/-- C2 amended: the adapted role is `"model"` when the original role is
`"assistant"`, `"user"` when the role field is absent, and otherwise the
original role unchanged; except that a list content containing at least
one `tool_result` part forces the adapted role to the tool-result role
`"user"` regardless of the original role field. -/
theorem C2_role_mapping_amended (role? : Option String) (s : String)
    (items : List ContentItem) :
    ((convertMessage ⟨role?, some (Content.str s)⟩).map (fun m => m.role) =
      some (if role?.getD "user" = "assistant" then "model" else role?.getD "user"))
    ∧ ((convertMessage ⟨role?, none⟩).map (fun m => m.role) =
      some (if role?.getD "user" = "assistant" then "model" else role?.getD "user"))
    ∧ ((convertMessage ⟨role?, some (Content.list items)⟩).map (fun m => m.role) =
      some (if hasToolResult items then "user"
            else if role?.getD "user" = "assistant" then "model" else role?.getD "user")) := by
  refine ⟨?_, ?_, ?_⟩
  · simp [convertMessage, baseRole]
  · simp [convertMessage, baseRole]
  · simp [convertMessage, baseRole, processItems_snd]

/-- C3 counterexample: the adapter is not total — a dict message whose
list-valued content holds the non-dict item `42` makes `item.get`
(line 86) raise `AttributeError`, so the adapter raises instead of
degrading the entry; and even on inputs where it does not raise it need
not preserve length: a message whose content is neither a string nor a
list (the integer `42` as content) is skipped, leaving an empty output
for a one-message input. -/
theorem C3_adapter_total_counterexample :
    convert_messages_to_gemini_e
        [PyMsg.dict ⟨some "user", some (ContentE.list [PyItem.nondict "42"])⟩] =
      Except.error (PyError.attributeError "42")
    ∧ (∀ gs, Except.error (PyError.attributeError "42") ≠
        (Except.ok gs : Except PyError (List GemMessage)))
    ∧ (convert_messages_to_gemini [⟨some "user", some (Content.other "42")⟩]).length = 0
    ∧ ([(⟨some "user", some (Content.other "42")⟩ : ChatMessage)]).length = 1 :=
  ⟨rfl, fun gs h => by simp at h, rfl, rfl⟩

/-- C3 amended: on lists of dict-shaped messages whose list-valued
contents hold only dict items, the adapter never raises (it returns a
value, agreeing with `convert_messages_to_gemini`, other malformed
entries degrading to best-effort text parts) and emits exactly one
adapted message per input whose content is a string or a list, skipping
messages with other content shapes — so the output length is at most
the input length, with equality when every content is a string or a
list; but a non-dict message, or a non-dict item inside a list-valued
content, raises `AttributeError`, which escapes the adapter to the
handler's top-level 500 path. -/
theorem C3_adapter_total_amended (msgs : List ChatMessage) (pmsgs : List PyMsg) :
    convert_messages_to_gemini_e (msgs.map embedMsg) =
        Except.ok (convert_messages_to_gemini msgs)
    ∧ (convert_messages_to_gemini msgs).length ≤ msgs.length
    ∧ ((∀ m ∈ msgs, contentOk m = true) →
        (convert_messages_to_gemini msgs).length = msgs.length)
    ∧ ((∃ m ∈ pmsgs, wellShaped m = false) →
        ∃ err, convert_messages_to_gemini_e pmsgs = Except.error err) :=
  ⟨convert_e_embed msgs, convert_length_le msgs, convert_length_eq msgs,
   convert_e_error pmsgs⟩

/-- Witness for C3's amended statement: a two-message dict-shaped list
adapts without raising and preserves length, while a list holding one
non-dict message raises. -/
theorem C3_adapter_total_amended_witness :
    convert_messages_to_gemini_e
        ([(⟨some "user", some (Content.str "hi")⟩ : ChatMessage),
          ⟨some "assistant", none⟩].map embedMsg) =
      Except.ok (convert_messages_to_gemini
        [⟨some "user", some (Content.str "hi")⟩, ⟨some "assistant", none⟩])
    ∧ (∀ m ∈ [(⟨some "user", some (Content.str "hi")⟩ : ChatMessage),
              ⟨some "assistant", none⟩], contentOk m = true)
    ∧ (convert_messages_to_gemini
        [⟨some "user", some (Content.str "hi")⟩, ⟨some "assistant", none⟩]).length =
      ([(⟨some "user", some (Content.str "hi")⟩ : ChatMessage),
        ⟨some "assistant", none⟩]).length
    ∧ (∃ m ∈ [PyMsg.nondict "None"], wellShaped m = false)
    ∧ (∃ err, convert_messages_to_gemini_e [PyMsg.nondict "None"] = Except.error err) :=
  ⟨(C3_adapter_total_amended
      [⟨some "user", some (Content.str "hi")⟩, ⟨some "assistant", none⟩]
      [PyMsg.nondict "None"]).1,
   by decide,
   (C3_adapter_total_amended
      [⟨some "user", some (Content.str "hi")⟩, ⟨some "assistant", none⟩]
      [PyMsg.nondict "None"]).2.2.1 (by decide),
   ⟨PyMsg.nondict "None", List.mem_singleton.mpr rfl, rfl⟩,
   (C3_adapter_total_amended
      [⟨some "user", some (Content.str "hi")⟩, ⟨some "assistant", none⟩]
      [PyMsg.nondict "None"]).2.2.2
     ⟨PyMsg.nondict "None", List.mem_singleton.mpr rfl, rfl⟩⟩

/-- C4: every failing tool outcome (network error, HTTP status error,
or any other exception) yields a value of the form
`{"error": <diagnostic>}` rather than a propagated failure, and the
handler still appends the two transcript messages and makes the final
streaming call exactly as for a successful result. -/
theorem C4_tool_failure_is_value (env : Env) (body : RequestBody)
    (fp : GemPart) (n : String) (a : Json)
    (hne : (body.messages?.getD []).isEmpty = false)
    (hp : env.probe (convert_messages_to_gemini (body.messages?.getD [])) = ProbeResp.valid fp)
    (hc : partToolCall? fp = some (n, a))
    (hfail : (env.tool ⟨toolNameMcp n, a⟩).isFailure = true) :
    (∃ msg, invokeResult (env.tool ⟨toolNameMcp n, a⟩) = Json.obj [("error", Json.str msg)])
    ∧ chat env body = ChatOutcome.toolStreamed ⟨toolNameMcp n, a⟩
        (convert_messages_to_gemini (body.messages?.getD []) ++
          [⟨"model", [fp]⟩,
           ⟨"user", [GemPart.functionResponse n
              (jsonDumps (invokeResult (env.tool ⟨toolNameMcp n, a⟩)))]⟩])
        (stream_generator (env.finalStream (convert_messages_to_gemini (body.messages?.getD []) ++
          [⟨"model", [fp]⟩,
           ⟨"user", [GemPart.functionResponse n
              (jsonDumps (invokeResult (env.tool ⟨toolNameMcp n, a⟩)))]⟩]))) := by
  constructor
  · cases htool : env.tool ⟨toolNameMcp n, a⟩ with
    | success b => rw [htool] at hfail; simp [ToolOutcome.isFailure] at hfail
    | networkError e => exact ⟨_, rfl⟩
    | httpStatusError st tx => exact ⟨_, rfl⟩
    | otherError e => exact ⟨_, rfl⟩
  · exact chat_toolPath env body fp n a hne hp hc

/-- Witness for C4 with an unreachable tool server. -/
theorem C4_tool_failure_is_value_witness :
    (∃ msg, invokeResult (envToolFail.tool ⟨"FS: list_files", Json.obj [("path", Json.str ".")]⟩) =
        Json.obj [("error", Json.str msg)])
    ∧ chat envToolFail bodyOneMsg = ChatOutcome.toolStreamed
        ⟨"FS: list_files", Json.obj [("path", Json.str ".")]⟩
        (probeTW ++ [⟨"model", [fpW]⟩,
          ⟨"user", [GemPart.functionResponse "FS_list_files"
            "\x7b\"error\": \"Network error contacting Workshop: connection refused\"\x7d"]⟩])
        [] :=
  C4_tool_failure_is_value envToolFail bodyOneMsg fpW "FS_list_files"
    (Json.obj [("path", Json.str ".")]) rfl rfl rfl rfl

/-- C5: a POST body with an empty or absent messages list yields the
fixed 400-class "No messages provided." outcome, for every environment —
in particular the outcome does not depend on the generation API or the
tool server, so neither is contacted. -/
theorem C5_empty_messages (env : Env) (body : RequestBody)
    (h : body.messages?.getD [] = []) :
    chat env body = ChatOutcome.badRequest "No messages provided." := by
  simp [chat, h]

/-- Witness for C5 at a body with an explicit empty list. -/
theorem C5_empty_messages_witness :
    chat envToolOk ⟨some []⟩ = ChatOutcome.badRequest "No messages provided." :=
  C5_empty_messages envToolOk ⟨some []⟩ rfl

/-- C6: the tool name sent to the remote tool server replaces only the
first underscore of the requested name with colon-space and leaves the
rest of the name (later underscores included) unchanged. -/
theorem C6_tool_name_translation (env : Env) (body : RequestBody)
    (fp : GemPart) (n : String) (a : Json) (front rest : List Char)
    (hne : (body.messages?.getD []).isEmpty = false)
    (hp : env.probe (convert_messages_to_gemini (body.messages?.getD [])) = ProbeResp.valid fp)
    (hc : partToolCall? fp = some (n, a))
    (hn : n.data = front ++ '_' :: rest) (hfront : '_' ∉ front) :
    toolNameMcp n = String.mk (front ++ ':' :: ' ' :: rest)
    ∧ ∃ finalT output,
        chat env body = ChatOutcome.toolStreamed
          ⟨String.mk (front ++ ':' :: ' ' :: rest), a⟩ finalT output := by
  have h1 : toolNameMcp n = String.mk (front ++ ':' :: ' ' :: rest) := by
    unfold toolNameMcp
    rw [hn, replaceFirst_split front rest hfront]
  have h2 := chat_toolPath env body fp n a hne hp hc
  rw [h1] at h2
  exact ⟨h1, _, _, h2⟩

/-- Witness for C6: invoking `FS_list_files` issues a request named
`FS: list_files`. -/
theorem C6_tool_name_translation_witness :
    toolNameMcp "FS_list_files" = "FS: list_files"
    ∧ ∃ finalT output,
        chat envToolOk bodyOneMsg = ChatOutcome.toolStreamed
          ⟨"FS: list_files", Json.obj [("path", Json.str ".")]⟩ finalT output :=
  C6_tool_name_translation envToolOk bodyOneMsg fpW "FS_list_files"
    (Json.obj [("path", Json.str ".")]) ['F', 'S'] "list_files".data
    rfl rfl rfl rfl (by decide)

/-- C7: the content fed into an adapted function-response part is a
string: a string content passes through unchanged, a JSON-serialisable
non-string is JSON-serialised, a non-serialisable value falls back to
its `str()` form; and `json.dumps` renders `{"ok": True}` as the string
`{"ok": true}` (with Python's default separators). -/
theorem C7_tool_result_stringification (item : ContentItem) (r s : String)
    (j : Json) (rep : String)
    (h : itemType item = "tool_result") :
    ((item.content? = some (PyVal.pstr s) →
        (processItems [item] r).1 =
          [GemPart.functionResponse (item.tool_use_id?.getD (item.name?.getD "")) s])
    ∧ (item.content? = some (PyVal.pjson j) →
        (processItems [item] r).1 =
          [GemPart.functionResponse (item.tool_use_id?.getD (item.name?.getD "")) (jsonDumps j)])
    ∧ (item.content? = some (PyVal.pother rep) →
        (processItems [item] r).1 =
          [GemPart.functionResponse (item.tool_use_id?.getD (item.name?.getD "")) rep]))
    ∧ jsonDumps (Json.obj [("ok", Json.bool true)]) = "\x7b\"ok\": true\x7d" := by
  have hnu : itemType item ≠ "tool_use" := by rw [h]; decide
  refine ⟨⟨?_, ?_, ?_⟩, rfl⟩ <;>
    intro hcontent <;>
    simp [processItems, h, hnu, hcontent, coerceToolContent]

/-- A concrete `tool_result` part whose content is the JSON object
`{"ok": True}`, used to witness C7. -/
def itemC7 : ContentItem :=
  ⟨some "tool_result", some "FS_read_file", none, none,
   some (PyVal.pjson (Json.obj [("ok", Json.bool true)])), some "FS_read_file", none, ""⟩

/-- Witness for C7: the non-string content `{"ok": True}` is serialised
to the JSON string in the adapted function-response part. -/
theorem C7_tool_result_stringification_witness :
    itemType itemC7 = "tool_result"
    ∧ (processItems [itemC7] "user").1 =
        [GemPart.functionResponse "FS_read_file"
          (jsonDumps (Json.obj [("ok", Json.bool true)]))]
    ∧ jsonDumps (Json.obj [("ok", Json.bool true)]) = "\x7b\"ok\": true\x7d" :=
  ⟨rfl,
   (C7_tool_result_stringification itemC7 "user" "" (Json.obj [("ok", Json.bool true)]) ""
      rfl).1.2.1 rfl,
   (C7_tool_result_stringification itemC7 "user" "" (Json.obj [("ok", Json.bool true)]) ""
      rfl).2⟩

/-- A `tool_use` part carrying an `arguments` field but no `input`
field, used as the C8 counterexample. -/
def itemC8 : ContentItem :=
  ⟨some "tool_use", some "FS_read_file", none,
   some (Json.obj [("path", Json.str "main.py")]), none, none, none, ""⟩

/-- C8 counterexample: a `tool_use` part with `arguments` present but
`input` absent is adapted with the empty-object arguments `{}` — the
code reads only `item.get("input", {})` and never consults an
`arguments` field. -/
theorem C8_tool_use_args_counterexample :
    (processItems [itemC8] "model").1 = [GemPart.functionCall "FS_read_file" (Json.obj [])]
    ∧ (processItems [itemC8] "model").1 ≠
        [GemPart.functionCall "FS_read_file" (Json.obj [("path", Json.str "main.py")])] := by
  refine ⟨rfl, ?_⟩
  intro hcontra
  rw [show (processItems [itemC8] "model").1 =
      [GemPart.functionCall "FS_read_file" (Json.obj [])] from rfl] at hcontra
  simp at hcontra

/-- C8 amended: for every `tool_use` content part the adapter emits a
function-call part whose name is the part's name field (empty string if
absent) and whose arguments are the part's `input` field, defaulting to
the empty object when `input` is absent; the `arguments` field is never
consulted. -/
theorem C8_tool_use_args_amended (item : ContentItem) (r : String)
    (h : itemType item = "tool_use") :
    processItems [item] r =
      ([GemPart.functionCall (item.name?.getD "") (item.input?.getD (Json.obj []))], r) := by
  simp [processItems, h]

/-- Witness for C8's amended statement at the counterexample part. -/
theorem C8_tool_use_args_amended_witness :
    itemType itemC8 = "tool_use"
    ∧ processItems [itemC8] "model" =
        ([GemPart.functionCall "FS_read_file" (Json.obj [])], "model") :=
  ⟨rfl, C8_tool_use_args_amended itemC8 "model" rfl⟩

/-- C9: if a chunk of the final streaming call carries a truthy safety
block reason, the stream yields the texts of the chunks already
forwarded (those of the blocking chunk included), then exactly one
diagnostic fragment, and ends: chunks after the block signal contribute
nothing, and the generator makes no second pass over the stream. -/
theorem C9_safety_block (front : List Chunk) (c : Chunk) (post : List Chunk) (r : String)
    (hfront : ∀ x ∈ front, x.blockReason? = none)
    (hc : c.blockReason? = some r) :
    stream_generator (front ++ c :: post) =
      (front.map (fun x => chunkTexts x.parts)).flatten ++ chunkTexts c.parts
        ++ [blockDiagnostic r c.blockReasonMessage?] := by
  induction front with
  | nil => simp [stream_generator, hc]
  | cons p ps ih =>
    have hp := hfront p (by simp)
    rw [List.cons_append]
    simp [stream_generator, hp, ih (fun x hx => hfront x (by simp [hx])), List.append_assoc]

/-- Chunks used by the C9 witness: one ordinary chunk, one blocked
chunk, and one chunk after the block that must not be forwarded. -/
def chunkBefore : Chunk := ⟨[some "Hello "], none, none⟩

def chunkBlocked : Chunk := ⟨[some "wor"], some "SAFETY", none⟩

def chunkAfter : Chunk := ⟨[some "never shown"], none, none⟩

/-- Witness for C9 at a concrete chunk sequence. -/
theorem C9_safety_block_witness :
    (∀ x ∈ [chunkBefore], x.blockReason? = none)
    ∧ chunkBlocked.blockReason? = some "SAFETY"
    ∧ stream_generator [chunkBefore, chunkBlocked, chunkAfter] =
        ([chunkBefore].map (fun x => chunkTexts x.parts)).flatten
          ++ chunkTexts chunkBlocked.parts
          ++ [blockDiagnostic "SAFETY" chunkBlocked.blockReasonMessage?] :=
  ⟨by decide, rfl,
   C9_safety_block [chunkBefore] chunkBlocked [chunkAfter] "SAFETY" (by decide) rfl⟩

/-- C10: the name of an adapted function-response part is the part's
`tool_use_id` field when present, otherwise its `name` field, otherwise
the empty string; the `name` field is consulted only when `tool_use_id`
is absent. -/
theorem C10_function_response_name (item : ContentItem) (r : String)
    (h : itemType item = "tool_result") :
    (processItems [item] r).1 =
      [GemPart.functionResponse (item.tool_use_id?.getD (item.name?.getD ""))
        (coerceToolContent (item.content?.getD (PyVal.pstr "")))]
    ∧ (∀ t, item.tool_use_id? = some t →
        item.tool_use_id?.getD (item.name?.getD "") = t)
    ∧ (item.tool_use_id? = none →
        item.tool_use_id?.getD (item.name?.getD "") = item.name?.getD "") := by
  have hnu : itemType item ≠ "tool_use" := by rw [h]; decide
  refine ⟨by simp [processItems, h, hnu], ?_, ?_⟩
  · intro t ht; rw [ht]; rfl
  · intro ht; rw [ht]; rfl

/-- A `tool_result` part carrying both a `tool_use_id` and a `name`,
used to witness C10's precedence. -/
def itemC10 : ContentItem :=
  ⟨some "tool_result", some "ignored_name", none, none,
   some (PyVal.pstr "done"), some "FS_write_file", none, ""⟩

/-- Witness for C10: with both fields present, `tool_use_id` wins. -/
theorem C10_function_response_name_witness :
    itemType itemC10 = "tool_result"
    ∧ (processItems [itemC10] "user").1 =
        [GemPart.functionResponse "FS_write_file" "done"]
    ∧ itemC10.tool_use_id?.getD (itemC10.name?.getD "") = "FS_write_file" :=
  ⟨rfl,
   (C10_function_response_name itemC10 "user" rfl).1,
   (C10_function_response_name itemC10 "user" rfl).2.1 "FS_write_file" rfl⟩

end MCPOrchestrator
